import Mathlib

/-!
Shallow embedding of the step-gated authentication workflow of
`admin_console_next`: the login page (`src/unnamed/part_000`), the plain
signup form (`src/components/auth/Join.tsx`) and the invitation-bound
signup form (`src/components/auth/JoinWithInvitation.tsx`).

Each form is a formik component with
 * a Yup validation schema deciding which fields are required in the
   current step (the `$step` validation context),
 * an `onSubmit` handler that calls the external Hawcx provider
   (`signUp` / `signIn` / `verifyOTP`) and, depending on the result,
   changes the step, writes `sessionStorage`, shows a message/toast and
   navigates.

We embed the schemas as data evaluated by `isRequired`, and each
`onSubmit` handler as a pure function from the current step and the
provider result to an outcome record (new step, session writes,
messages, navigation target).
-/

namespace AdminConsole

/-- The login page's step state: `useState<'email' | 'otp'>('email')`
(src/unnamed/part_000). `email` is the request step, `otp` the verify step. -/
inductive LoginStep where
  | email
  | otp
deriving DecidableEq, Repr

/-- The join forms' step state: `useState<'form' | 'otp'>('form')`
(Join.tsx, JoinWithInvitation.tsx). `form` is the request step. -/
inductive JoinStep where
  | form
  | otp
deriving DecidableEq, Repr

/-- Result of a provider call (`signUp`, `signIn`, `verifyOTP`):
`{success, message, data?.access_token}`.  `access_token` is `none` when
`res.data` is absent or carries no token. -/
structure AuthResult where
  success : Bool
  message : String
  access_token : Option String
deriving DecidableEq, Repr

/-- JavaScript truthiness of the optional `res.data?.access_token`:
`undefined` and the empty string are falsy. -/
def truthyToken : Option String → Bool
  | none => false
  | some t => !(t == "")

/-! ## Validation schemas

The three Yup schemas are embedded as association lists from field name
to a rule AST; `isRequired` evaluates a rule against the validation
context (`$step`, threaded as `validationContext: { step }` in the
source) and the form value `sentViaEmail` (referenced by
`.when('sentViaEmail', ...)` in JoinWithInvitation.tsx). -/

/-- A Yup field rule, restricted to the combinators the three schemas
use.  `str` is a plain `Yup.string()` chain without `.required()` (such
as `.max(...)`): not required. -/
inductive FieldRule where
  | required
  | notRequired
  | str
  | whenCtxStep (isVal : String) (thenRule otherwiseRule : FieldRule)
  | whenSentViaEmail (isVal : Bool) (thenRule otherwiseRule : FieldRule)
deriving DecidableEq, Repr

/-- Validation context: the `$step` context value and the form's
`sentViaEmail` value (only JoinWithInvitation has the latter). -/
structure ValidationCtx where
  step : String
  sentViaEmail : Bool
deriving DecidableEq, Repr

/-- Whether a rule makes its field required in a given context. -/
def isRequired : FieldRule → ValidationCtx → Bool
  | .required, _ => true
  | .notRequired, _ => false
  | .str, _ => false
  | .whenCtxStep v t o, c => if c.step == v then isRequired t c else isRequired o c
  | .whenSentViaEmail v t o, c =>
      if c.sentViaEmail == v then isRequired t c else isRequired o c

/-- Login page schema (src/unnamed/part_000 lines 71-79):
`email` always required; `otp` required when `$step == 'otp'`,
otherwise `notRequired`. -/
def loginValidationSchema : List (String × FieldRule) :=
  [("email", .required),
   ("otp", .whenCtxStep "otp" .required .notRequired)]

/-- `JoinUserSchema` of Join.tsx (lines 19-28): `name`, `email`, `team`
always required; `otp` required when `$step == 'otp'`. -/
def joinUserSchema : List (String × FieldRule) :=
  [("name", .required),
   ("email", .required),
   ("otp", .whenCtxStep "otp" .required .notRequired),
   ("team", .required)]

/-- `JoinUserSchema` of JoinWithInvitation.tsx (lines 26-40): `name` and
`sentViaEmail` required; `otp` required when `$step == 'otp'`; `email`
required (and checked as email) only when `sentViaEmail` is `false`,
otherwise just `Yup.string().max(...)`. -/
def joinWithInvitationUserSchema : List (String × FieldRule) :=
  [("name", .required),
   ("otp", .whenCtxStep "otp" .required .notRequired),
   ("sentViaEmail", .required),
   ("email", .whenSentViaEmail false .required .str)]

/-- Whether a schema requires a field in a context (absent fields are
not required). -/
def fieldRequired (schema : List (String × FieldRule)) (field : String)
    (ctx : ValidationCtx) : Bool :=
  match schema.lookup field with
  | some r => isRequired r ctx
  | none => false

/-! ## Initial values and rendering facts -/

/-- JavaScript `a || b` on an optional boolean `a`: returns `b` unless
`a` is truthy (i.e. `some true`). -/
def jsOr (a : Option Bool) (b : Bool) : Bool :=
  match a with
  | some true => true
  | _ => b

/-- `initialValues.sentViaEmail` of JoinWithInvitation.tsx (line 59):
`invitation?.sentViaEmail || true`.  The argument is `none` when the
invitation has not loaded. -/
def initialSentViaEmail (invitationSentViaEmail : Option Bool) : Bool :=
  jsOr invitationSentViaEmail true

/-- Whether the email input of JoinWithInvitation.tsx is rendered as the
fixed, disabled variant: the ternary `invitation.sentViaEmail ? <disabled
input showing invitation.email> : <editable formik field>` (lines
107-124). -/
def joinInvEmailFieldDisabled (invitationSentViaEmail : Bool) : Bool :=
  invitationSentViaEmail

/-- `disabled={step === 'otp'}` on the login page's email input
(src/unnamed/part_000 lines 141-150). -/
def loginEmailInputDisabled (step : LoginStep) : Bool :=
  step == LoginStep.otp

/-- Props of the submit `Button` as rendered by each form.  The source
passes `loading={formik.isSubmitting}` and `active={formik.dirty}` and
never passes a `disabled` prop, so `disabled` keeps the default `false`. -/
structure ButtonProps where
  btnType : String
  color : String
  loading : Bool
  active : Bool
  disabled : Bool
  fullWidth : Bool
deriving DecidableEq, Repr

/-- Submit button of the login form (src/unnamed/part_000 lines 167-177). -/
def loginSubmitButton (isSubmitting dirty : Bool) : ButtonProps :=
  { btnType := "submit", color := "primary", loading := isSubmitting,
    active := dirty, disabled := false, fullWidth := true }

/-- Submit button of Join.tsx (lines 116-126); JoinWithInvitation.tsx
renders the same props. -/
def joinSubmitButton (isSubmitting dirty : Bool) : ButtonProps :=
  { btnType := "submit", color := "primary", loading := isSubmitting,
    active := dirty, disabled := false, fullWidth := true }

/-! ## Redirect resolution -/

/-- JavaScript truthiness of an optional string (the `token` query
parameter): `undefined` and `''` are falsy. -/
def jsTruthyStr : Option String → Bool
  | none => false
  | some s => !(s == "")

/-- `redirectUrl` of the login page (src/unnamed/part_000 lines 63-65):
``token ? `/invitations/${token}` : env.redirectIfAuthenticated``. -/
def redirectUrl (token : Option String) (redirectIfAuthenticated : String) : String :=
  if jsTruthyStr token then "/invitations/" ++ token.getD ""
  else redirectIfAuthenticated

/-! ## Provider calls issued by a submission -/

/-- A call to the Hawcx provider with the arguments the source passes. -/
inductive ProviderCall where
  | signUp (email : String)
  | signIn (email : String)
  | verifyOTP (code : String)
deriving DecidableEq, Repr

/-- Formik values of the login form. -/
structure LoginValues where
  email : String
  otp : String
deriving DecidableEq, Repr

/-- Formik values of Join.tsx. -/
structure JoinValues where
  name : String
  email : String
  otp : String
  team : String
deriving DecidableEq, Repr

/-- Formik values of JoinWithInvitation.tsx. -/
structure JoinInvValues where
  name : String
  email : String
  otp : String
  sentViaEmail : Bool
deriving DecidableEq, Repr

/-- The provider call issued by the login page's `onSubmit`
(src/unnamed/part_000 lines 81-107): `signIn(values.email)` in the email
step, `verifyOTP(values.otp)` in the otp step.  `recaptchaToken` is the
component state captured by the submit closure; the source never passes
it to the provider. -/
def loginProviderCall (step : LoginStep) (values : LoginValues)
    (recaptchaToken : String) : ProviderCall :=
  match step, recaptchaToken with
  | .email, _ => .signIn values.email
  | .otp, _ => .verifyOTP values.otp

/-- The provider call issued by Join.tsx's `onSubmit` (lines 48-66):
`signUp(values.email)` in the form step, `verifyOTP(values.otp)` in the
otp step; `recaptchaToken` is captured component state, never passed on. -/
def joinProviderCall (step : JoinStep) (values : JoinValues)
    (recaptchaToken : String) : ProviderCall :=
  match step, recaptchaToken with
  | .form, _ => .signUp values.email
  | .otp, _ => .verifyOTP values.otp

/-- The provider call issued by JoinWithInvitation.tsx's `onSubmit`
(lines 66-85): same shape as Join.tsx. -/
def joinInvProviderCall (step : JoinStep) (values : JoinInvValues)
    (recaptchaToken : String) : ProviderCall :=
  match step, recaptchaToken with
  | .form, _ => .signUp values.email
  | .otp, _ => .verifyOTP values.otp

/-! ## Submission outcomes -/

/-- Outcome of one run of the login page's `onSubmit` handler after the
provider result arrives: the step afterwards, the error message shown
(`setMessage`), the `sessionStorage.setItem` writes performed, and the
`router.push` target if any. -/
structure LoginOutcome where
  step : LoginStep
  message : Option String
  sessionWrites : List (String × String)
  navigatedTo : Option String
deriving DecidableEq, Repr

/-- The login page's `onSubmit` (src/unnamed/part_000 lines 81-107).
In the email step: on `res.success && res.data?.access_token` write the
token and push the redirect; on bare success move to the otp step; else
show `res.message`.  In the otp step: on success write the token when
present (truthy) and push the redirect; else show `verify.message`. -/
def loginOnSubmit (step : LoginStep) (red : String) (res : AuthResult) :
    LoginOutcome :=
  match step with
  | .email =>
      if res.success && truthyToken res.access_token then
        { step := .email, message := none,
          sessionWrites := [("access_token", res.access_token.getD "")],
          navigatedTo := some red }
      else if res.success then
        { step := .otp, message := none, sessionWrites := [], navigatedTo := none }
      else
        { step := .email, message := some res.message,
          sessionWrites := [], navigatedTo := none }
  | .otp =>
      if res.success then
        { step := .otp, message := none,
          sessionWrites :=
            if truthyToken res.access_token then
              [("access_token", res.access_token.getD "")]
            else [],
          navigatedTo := some red }
      else
        { step := .otp, message := some res.message,
          sessionWrites := [], navigatedTo := none }

/-- Outcome of one run of a join form's `onSubmit` handler. -/
structure JoinOutcome where
  step : JoinStep
  toastError : Option String
  toastSuccess : Option String
  sessionWrites : List (String × String)
  navigatedTo : Option String
deriving DecidableEq, Repr

/-- Join.tsx `onSubmit` (lines 48-66).  Form step: on success move to
the otp step, else `toast.error(res.message)`.  Otp step: on success
`toast.success(t('successfully-joined'))` and push `/auth/login` (the
translation `t` is modelled as the identity on the key); else
`toast.error(verify.message)`.  No branch touches `sessionStorage`. -/
def joinOnSubmit (step : JoinStep) (res : AuthResult) : JoinOutcome :=
  match step with
  | .form =>
      if res.success then
        { step := .otp, toastError := none, toastSuccess := none,
          sessionWrites := [], navigatedTo := none }
      else
        { step := .form, toastError := some res.message, toastSuccess := none,
          sessionWrites := [], navigatedTo := none }
  | .otp =>
      if res.success then
        { step := .otp, toastError := none,
          toastSuccess := some "successfully-joined",
          sessionWrites := [], navigatedTo := some "/auth/login" }
      else
        { step := .otp, toastError := some res.message, toastSuccess := none,
          sessionWrites := [], navigatedTo := none }

/-- JoinWithInvitation.tsx `onSubmit` (lines 66-85): identical to
Join.tsx except the success navigation target is
``/auth/login?token=${inviteToken}``. -/
def joinInvOnSubmit (inviteToken : String) (step : JoinStep)
    (res : AuthResult) : JoinOutcome :=
  match step with
  | .form =>
      if res.success then
        { step := .otp, toastError := none, toastSuccess := none,
          sessionWrites := [], navigatedTo := none }
      else
        { step := .form, toastError := some res.message, toastSuccess := none,
          sessionWrites := [], navigatedTo := none }
  | .otp =>
      if res.success then
        { step := .otp, toastError := none,
          toastSuccess := some "successfully-joined",
          sessionWrites := [],
          navigatedTo := some ("/auth/login?token=" ++ inviteToken) }
      else
        { step := .otp, toastError := some res.message, toastSuccess := none,
          sessionWrites := [], navigatedTo := none }

/-- A sequence of login-page submissions, each carrying the provider
result it receives, run from a starting step; collects all
`sessionStorage` writes.  The handler itself has no guard against
further submissions, so every submission in the list is processed. -/
def loginRun (red : String) : LoginStep → List AuthResult → List (String × String)
  | _, [] => []
  | s, r :: rs =>
      let o := loginOnSubmit s red r
      o.sessionWrites ++ loginRun red o.step rs

end AdminConsole

namespace AdminConsole

/-! ## Theorems -/

/-- C1: in every flow variant (login page, Join, JoinWithInvitation) the
`otp` field is required by the validation schema exactly when the step
context is `'otp'` (the verify step); in the request step it is never
required. -/
theorem otp_required_iff_verify_step (ctx : ValidationCtx) :
    (fieldRequired loginValidationSchema "otp" ctx = true ↔ ctx.step = "otp") ∧
    (fieldRequired joinUserSchema "otp" ctx = true ↔ ctx.step = "otp") ∧
    (fieldRequired joinWithInvitationUserSchema "otp" ctx = true ↔ ctx.step = "otp") := by
  obtain ⟨s, sve⟩ := ctx
  by_cases h : s = "otp" <;>
    simp [fieldRequired, loginValidationSchema, joinUserSchema,
      joinWithInvitationUserSchema, List.lookup, isRequired, h]

/-- Witness for C1: `otp` is required in the verify step and not in the
login page's request step (`'email'`). -/
theorem otp_required_iff_verify_step_witness :
    fieldRequired loginValidationSchema "otp" ⟨"otp", true⟩ = true ∧
    fieldRequired loginValidationSchema "otp" ⟨"email", true⟩ ≠ true := by
  refine ⟨(otp_required_iff_verify_step ⟨"otp", true⟩).1.mpr rfl, fun h => ?_⟩
  exact absurd ((otp_required_iff_verify_step ⟨"email", true⟩).1.mp h) (by decide)

/-- C2: a login-flow submission in the request step whose `signIn`
result succeeds with a (truthy) access token writes the token to the
session store and navigates to the resolved redirect while the step
stays `email` (the verify step is never entered); a success without a
token moves to the verify step with no write and no navigation. -/
theorem login_request_step_submit (red : String) (res : AuthResult)
    (h : res.success = true) :
    (truthyToken res.access_token = true →
       loginOnSubmit LoginStep.email red res =
         { step := LoginStep.email, message := none,
           sessionWrites := [("access_token", res.access_token.getD "")],
           navigatedTo := some red }) ∧
    (truthyToken res.access_token = false →
       loginOnSubmit LoginStep.email red res =
         { step := LoginStep.otp, message := none,
           sessionWrites := [], navigatedTo := none }) := by
  constructor <;> intro ht <;> simp [loginOnSubmit, h, ht]

/-- Witness for C2, Scenario A: `signIn` succeeds immediately with token
`T1` and no invite token is present, so the session stores `T1` and the
flow navigates to the configured default. -/
theorem login_request_step_submit_witness :
    loginOnSubmit LoginStep.email (redirectUrl none "/dashboard")
        ⟨true, "", some "T1"⟩ =
      { step := LoginStep.email, message := none,
        sessionWrites := [("access_token", "T1")],
        navigatedTo := some "/dashboard" } :=
  (login_request_step_submit (redirectUrl none "/dashboard")
    ⟨true, "", some "T1"⟩ rfl).1 rfl

/-- Counterexample to C3 as stated: in the Join flow a successful
`verifyOTP` result that does carry a token produces no session write at
all — the join handler ignores `verify.data` entirely. -/
theorem join_verify_token_not_persisted :
    (⟨true, "", some "T"⟩ : AuthResult).success = true ∧
    truthyToken (⟨true, "", some "T"⟩ : AuthResult).access_token = true ∧
    (joinOnSubmit JoinStep.otp ⟨true, "", some "T"⟩).sessionWrites = [] := by
  decide

/-- C3 (amended): on a successful `verifyOTP` submission in the verify
step, the login flow persists the token when the result carries one
(and navigates to the redirect either way), while the join flows never
persist anything — even when the result carries a token — and instead
report success and navigate to the login page. -/
theorem verify_step_submit (red inviteToken : String) (res : AuthResult)
    (h : res.success = true) :
    (truthyToken res.access_token = true →
       (loginOnSubmit LoginStep.otp red res).sessionWrites =
           [("access_token", res.access_token.getD "")] ∧
       (loginOnSubmit LoginStep.otp red res).navigatedTo = some red) ∧
    (truthyToken res.access_token = false →
       (loginOnSubmit LoginStep.otp red res).sessionWrites = [] ∧
       (loginOnSubmit LoginStep.otp red res).navigatedTo = some red) ∧
    (joinOnSubmit JoinStep.otp res =
       { step := JoinStep.otp, toastError := none,
         toastSuccess := some "successfully-joined",
         sessionWrites := [], navigatedTo := some "/auth/login" }) ∧
    (joinInvOnSubmit inviteToken JoinStep.otp res =
       { step := JoinStep.otp, toastError := none,
         toastSuccess := some "successfully-joined",
         sessionWrites := [],
         navigatedTo := some ("/auth/login?token=" ++ inviteToken) }) := by
  refine ⟨fun ht => ?_, fun ht => ?_, ?_, ?_⟩ <;>
    simp [loginOnSubmit, joinOnSubmit, joinInvOnSubmit, h] <;> simp [ht]

/-- Witness for C3 (amended), Scenario B: `verifyOTP` succeeds with
token `T2` in the login flow, which stores `T2` and navigates. -/
theorem verify_step_submit_witness :
    (loginOnSubmit LoginStep.otp "/dashboard" ⟨true, "", some "T2"⟩).sessionWrites =
        [("access_token", "T2")] ∧
    (loginOnSubmit LoginStep.otp "/dashboard" ⟨true, "", some "T2"⟩).navigatedTo =
        some "/dashboard" :=
  (verify_step_submit "/dashboard" "INV1" ⟨true, "", some "T2"⟩ rfl).1 rfl

/-- C4 (code evaluated at the failing input): with an invitation whose
`sentViaEmail` is `false`, the form initialises `sentViaEmail` to
`invitation?.sentViaEmail || true`, which coerces `false` to `true`;
validation therefore does not require `email` even though the email
field is rendered editable.  The schema's own `when('sentViaEmail',
{is: false})` branch — which would require it — is unreachable. -/
theorem sentViaEmail_false_coerced :
    initialSentViaEmail (some false) = true ∧
    fieldRequired joinWithInvitationUserSchema "email"
        ⟨"form", initialSentViaEmail (some false)⟩ = false ∧
    joinInvEmailFieldDisabled false = false ∧
    fieldRequired joinWithInvitationUserSchema "email" ⟨"form", false⟩ = true := by
  decide

/-- C5 (code evaluated at the failing input): two consecutive identical
successful `verifyOTP` submissions in the verify step each execute the
`sessionStorage.setItem` write — nothing in the handler guards against a
second write. -/
theorem verify_resubmission_double_writes :
    loginRun "/dashboard" LoginStep.otp
        [⟨true, "", some "T2"⟩, ⟨true, "", some "T2"⟩] =
      [("access_token", "T2"), ("access_token", "T2")] := by
  decide

/-- C6: a provider result with `success: false` leaves the step
unchanged in every flow variant, surfaces the result's message verbatim
(error message on the login page, error toast in the join flows),
performs no session write and no navigation — so the same phase can be
resubmitted. -/
theorem provider_failure_preserves_phase (res : AuthResult)
    (h : res.success = false) (red inviteToken : String)
    (lstep : LoginStep) (jstep : JoinStep) :
    (loginOnSubmit lstep red res =
       { step := lstep, message := some res.message,
         sessionWrites := [], navigatedTo := none }) ∧
    (joinOnSubmit jstep res =
       { step := jstep, toastError := some res.message, toastSuccess := none,
         sessionWrites := [], navigatedTo := none }) ∧
    (joinInvOnSubmit inviteToken jstep res =
       { step := jstep, toastError := some res.message, toastSuccess := none,
         sessionWrites := [], navigatedTo := none }) := by
  cases lstep <;> cases jstep <;>
    simp [loginOnSubmit, joinOnSubmit, joinInvOnSubmit, h]

/-- Witness for C6, Scenario C: `signUp` fails with message
`email-taken`; the join flow stays in the request step, surfaces the
message, and writes nothing. -/
theorem provider_failure_preserves_phase_witness :
    joinOnSubmit JoinStep.form ⟨false, "email-taken", none⟩ =
      { step := JoinStep.form, toastError := some "email-taken",
        toastSuccess := none, sessionWrites := [], navigatedTo := none } :=
  (provider_failure_preserves_phase ⟨false, "email-taken", none⟩ rfl
    "/dashboard" "INV1" LoginStep.email JoinStep.form).2.1

/-- C7: the redirect target is a pure function of the optional invite
token and the configured default: `/invitations/{token}` whenever a
(non-empty) token is present, for any configured default, and the
configured default otherwise. -/
theorem redirect_resolution (t d : String) (h : t ≠ "") :
    redirectUrl (some t) d = "/invitations/" ++ t ∧
    redirectUrl none d = d := by
  constructor
  · simp [redirectUrl, jsTruthyStr, h]
  · simp [redirectUrl, jsTruthyStr]

/-- Witness for C7, Scenario D: invite token `INV1` present resolves to
`/invitations/INV1` regardless of the configured default. -/
theorem redirect_resolution_witness :
    redirectUrl (some "INV1") "/dashboard" = "/invitations/INV1" ∧
    redirectUrl none "/dashboard" = "/dashboard" :=
  redirect_resolution "INV1" "/dashboard" (by decide)

/-- C8 (code evaluated at the failing input): while a submission is in
flight (`formik.isSubmitting = true`) the submit buttons of the login
and join forms only show a loading spinner (`loading := true`); their
`disabled` prop stays `false`, so a re-entrant click is not blocked. -/
theorem submit_button_not_disabled_while_submitting :
    (loginSubmitButton true true).loading = true ∧
    (loginSubmitButton true true).disabled = false ∧
    (joinSubmitButton true true).loading = true ∧
    (joinSubmitButton true true).disabled = false := by
  decide

/-- C9: the captured CAPTCHA token is never forwarded to the provider:
for any two submissions differing only in the recaptcha token, the
provider call issued (operation and arguments) is identical in every
flow variant and step. -/
theorem recaptcha_token_not_forwarded (lstep : LoginStep) (jstep : JoinStep)
    (lv : LoginValues) (jv : JoinValues) (iv : JoinInvValues) (r1 r2 : String) :
    loginProviderCall lstep lv r1 = loginProviderCall lstep lv r2 ∧
    joinProviderCall jstep jv r1 = joinProviderCall jstep jv r2 ∧
    joinInvProviderCall jstep iv r1 = joinInvProviderCall jstep iv r2 := by
  cases lstep <;> cases jstep <;>
    simp [loginProviderCall, joinProviderCall, joinInvProviderCall]

/-- C10: the login page's email input is rendered disabled exactly in
the verify step (`step == 'otp'`) and editable in the request step. -/
theorem login_email_disabled_iff_otp :
    loginEmailInputDisabled LoginStep.otp = true ∧
    loginEmailInputDisabled LoginStep.email = false := by
  decide

end AdminConsole
